import Mathlib

/-!
Verification of `astromodels/functions/functions.py`: a catalog of spectral
model functions.  Each Python `evaluate` method is embedded as a function on
real numbers (elementwise semantics of the numpy array operations); the unit
machinery of astropy is embedded as a small dimensional algebra; fallible
methods (assertions, raised exceptions) return `Except`.
-/

open Real
open Classical

/-! ## Unit model

Astropy units are modelled as a scale factor together with integer exponents
over the three base dimensions the code manipulates: photon energy, time and
area.  `physical_type` mirrors astropy's classification as used by the code:
it only depends on the dimension exponents.
-/

structure AUnit where
  scale : ℚ
  energy : ℤ
  time : ℤ
  area : ℤ
deriving DecidableEq

def AUnit.mul (u v : AUnit) : AUnit :=
  ⟨u.scale * v.scale, u.energy + v.energy, u.time + v.time, u.area + v.area⟩

instance : Mul AUnit := ⟨AUnit.mul⟩

def AUnit.physical_type (u : AUnit) : String :=
  if u.energy = 1 ∧ u.time = 0 ∧ u.area = 0 then "energy"
  else if u.energy = 0 ∧ u.time = 0 ∧ u.area = 0 then "dimensionless"
  else "other"

/-- Decomposition to irreducible base units: the numeric scale is folded away;
the physical type is unchanged. -/
def AUnit.decompose (u : AUnit) : AUnit :=
  ⟨1, u.energy, u.time, u.area⟩

/-- The process-wide unit set returned by `get_units()`: photon energy. -/
def photon_energy : AUnit := ⟨1, 1, 0, 0⟩

/-- The process-wide unit set returned by `get_units()`: time. -/
def time_unit : AUnit := ⟨1, 0, 1, 0⟩

/-- The process-wide unit set returned by `get_units()`: area. -/
def area_unit : AUnit := ⟨1, 0, 0, 1⟩

/-! ## bias._set_units

The method first assigns `self.k.unit = x_unit` and only then checks
`x_unit != y_unit`, raising `InvalidUsageForFunction` on mismatch.  State is
made explicit: the mutable parameter-unit slot of `k` is the state, and the
second component of the result is the raised error message, if any.
-/

structure BiasState where
  k_unit : Option AUnit
deriving DecidableEq

def bias_set_units (x_unit y_unit : AUnit) (_s : BiasState) :
    BiasState × Option String :=
  let s' : BiasState := { k_unit := some x_unit }
  if x_unit ≠ y_unit then
    (s', some "Function bias cannot be given different units for x and y")
  else
    (s', none)

/-! ## synchrotron._set_units

Checks that `x_unit` is an energy and that `y_unit` times
`photon_energy * time * area` decomposes to a dimensionless quantity
(i.e. `y_unit` is a differential photon flux); raises
`InvalidUsageForFunction` otherwise.  In the model every unit carries a
`physical_type`, so the `hasattr` guards always pass.
-/

def synchrotron_set_units (x_unit y_unit : AUnit) : Except String Unit :=
  if x_unit.physical_type = "energy" then
    if (y_unit * (photon_energy * time_unit * area_unit)).decompose.physical_type
        ≠ "dimensionless" then
      Except.error "Unit for y is not differential flux. The function synchrotron can only be used as a spectrum."
    else
      Except.ok ()
  else
    Except.error "Unit for x is not an energy. The function synchrotron can only be used as a spectrum"

/-! ## uniform_prior.evaluate and log_uniform_prior.evaluate

`np.where((x >= lower_bound) & (x <= upper_bound), value, 0.0)` and
`np.where((x > lower_bound) & (x < upper_bound), 1.0/x, 0.0)`, elementwise.
-/

noncomputable def uniform_prior_evaluate (x lower_bound upper_bound value : ℝ) : ℝ :=
  if lower_bound ≤ x ∧ x ≤ upper_bound then value else 0

noncomputable def log_uniform_prior_evaluate (x lower_bound upper_bound : ℝ) : ℝ :=
  if lower_bound < x ∧ x < upper_bound then 1 / x else 0

/-! ## log_parabola.peak_energy

The property reads the current parameter values and returns
`piv * 10 ** ((2 + alpha) / (2 * beta))`.  The parameter record is threaded
through explicitly so that absence of mutation is statable.
-/

structure LogParabolaParams where
  K : ℝ
  piv : ℝ
  alpha : ℝ
  beta : ℝ

noncomputable def log_parabola_peak_energy (p : LogParabolaParams) :
    ℝ × LogParabolaParams :=
  (p.piv * (10 : ℝ) ^ ((2 + p.alpha) / (2 * p.beta)), p)

/-! ## band

The Band model.  `scipy.special.gammaincc(s, x)` is the regularized upper
incomplete gamma function Γ(s,x)/Γ(s); `scipy.special.gamma` is Γ.
-/

noncomputable def upperIncGamma (s x : ℝ) : ℝ :=
  ∫ t in Set.Ioi x, t ^ (s - 1) * Real.exp (-t)

noncomputable def gammaincc (s x : ℝ) : ℝ :=
  upperIncGamma s x / Real.Gamma s

noncomputable def ggrb_int_cpl (a Ec Emin Emax : ℝ) : ℝ :=
  let i1 := gammaincc (2 + a) (Emin / Ec) * Real.Gamma (2 + a);
  let i2 := gammaincc (2 + a) (Emax / Ec) * Real.Gamma (2 + a);
  -Ec * Ec * (i2 - i1)


noncomputable def ggrb_int_pl (a b Ec Emin Emax : ℝ) : ℝ :=
  let pre := (a - b) ^ (a - b) * Real.exp (b - a) / Ec ^ b
  if b ≠ -2 then
    pre / (2 + b) * (Emax ^ (2 + b) - Emin ^ (2 + b))
  else
    pre * Real.log (Emax / Emin)

/-- Cutoff energy: `xp / 0.0001` in the special case `alpha == -2` (the
hard-coded small-denominator trick), `xp / (2 + alpha)` otherwise. -/

noncomputable def band_Ec (alpha xp : ℝ) : ℝ :=
  if alpha = -2 then xp / 0.0001 else xp / (2 + alpha)

/-- Split energy `Esplit = (alpha - beta) * Ec`. -/
noncomputable def band_Esplit (alpha beta xp : ℝ) : ℝ :=
  (alpha - beta) * band_Ec alpha xp

/-- Errors that `band.evaluate` can raise: the entry assertion on `opt`, and
the `RuntimeError` for an inconsistent `Esplit`. -/
inductive BandErr where
  | assertionError : BandErr
  | runtimeError : String → BandErr
deriving DecidableEq

/-- Stage 1 of `band.evaluate`: the integrated model flux.  For `opt = 0` the
cutoff-power-law integral over `[a, b]`; for `opt = 1` the two-piece integral
when `a <= Esplit <= b`, the power-law integral alone when `Esplit < a`, and a
`RuntimeError` otherwise. -/

noncomputable def band_intflux (alpha beta xp a b opt : ℝ) : Except BandErr ℝ :=
  if opt = 0 then
    Except.ok (ggrb_int_cpl alpha (band_Ec alpha xp) a b)
  else if a ≤ band_Esplit alpha beta xp ∧ band_Esplit alpha beta xp ≤ b then
    Except.ok (ggrb_int_cpl alpha (band_Ec alpha xp) a (band_Esplit alpha beta xp) +
               ggrb_int_pl alpha beta (band_Ec alpha xp) (band_Esplit alpha beta xp) b)
  else if band_Esplit alpha beta xp < a then
    Except.ok (ggrb_int_pl alpha beta (band_Ec alpha xp) a b)
  else
    Except.error (BandErr.runtimeError "Esplit > emax!")

/-- Conversion constant between erg and keV used for the normalization. -/
noncomputable def erg2keV : ℝ := 6.24151e8

/-- Low-energy branch of the Band spectrum:
`norm * (x / Ec) ** alpha * exp(-x / Ec)`. -/
noncomputable def band_low (norm Ec alpha x : ℝ) : ℝ :=
  norm * (x / Ec) ^ alpha * Real.exp (-x / Ec)

/-- High-energy branch of the Band spectrum:
`norm * (alpha - beta) ** (alpha - beta) * exp(beta - alpha) * (x / Ec) ** beta`. -/
noncomputable def band_high (norm Ec alpha beta x : ℝ) : ℝ :=
  norm * (alpha - beta) ^ (alpha - beta) * Real.exp (beta - alpha) * (x / Ec) ^ beta

/-- `band.evaluate`, elementwise on a scalar coordinate `x`.  The entry
assertion `opt == 0 or opt == 1` is modelled as an `assertionError` result;
a `RuntimeError` from stage 1 propagates; otherwise the cutoff-power-law
shape is returned for `opt = 0`, and for `opt = 1` the low branch for
`x < Esplit` and the high branch for `x >= Esplit`. -/

noncomputable def band_evaluate (x alpha beta xp F a b opt : ℝ) : Except BandErr ℝ :=
  if opt = 0 ∨ opt = 1 then
    match band_intflux alpha beta xp a b opt with
    | Except.error e => Except.error e
    | Except.ok intflux =>
      if opt = 0 then
        Except.ok (band_low (F * erg2keV / intflux) (band_Ec alpha xp) alpha x)
      else if x < band_Esplit alpha beta xp then
        Except.ok (band_low (F * erg2keV / intflux) (band_Ec alpha xp) alpha x)
      else
        Except.ok (band_high (F * erg2keV / intflux) (band_Ec alpha xp) alpha beta x)
  else
    Except.error BandErr.assertionError

/-! ## Theorems -/

/-- C5: `bias._set_units` raises `InvalidUsageForFunction` if and only if
`x_unit != y_unit`; `synchrotron._set_units` succeeds if and only if `x_unit`
is an energy unit and `y_unit` is a differential photon flux (its product with
`photon_energy * time * area` decomposes to a dimensionless quantity) — i.e.
it raises a usage error whenever `x_unit` is not an energy, and also when
`y_unit` is not a differential photon flux. -/
theorem set_units_usage_errors :
    (∀ (x_unit y_unit : AUnit) (s : BiasState),
        ((bias_set_units x_unit y_unit s).2).isSome ↔ x_unit ≠ y_unit) ∧
    (∀ x_unit y_unit : AUnit,
        synchrotron_set_units x_unit y_unit = Except.ok () ↔
          (x_unit.physical_type = "energy" ∧
           (y_unit * (photon_energy * time_unit * area_unit)).decompose.physical_type =
             "dimensionless")) := by
  constructor
  · intro x y s
    unfold bias_set_units
    by_cases h : x = y <;> simp [h]
  · intro x y
    unfold synchrotron_set_units
    split_ifs with h1 h2 <;> simp_all

/-- C9: when `bias._set_units` is called with `x_unit != y_unit`, the failing
call has nevertheless already set the unit of parameter `k` to `x_unit`: the
error path is not atomic. -/
theorem bias_set_units_mutates_before_error (x_unit y_unit : AUnit) (s : BiasState)
    (h : x_unit ≠ y_unit) :
    (bias_set_units x_unit y_unit s).1.k_unit = some x_unit ∧
    ((bias_set_units x_unit y_unit s).2).isSome := by
  unfold bias_set_units
  simp [h]

/-- Witness for C9 at concrete units: photon energy vs. time. -/
theorem bias_set_units_mutates_before_error_witness :
    photon_energy ≠ time_unit ∧
    ((bias_set_units photon_energy time_unit ⟨none⟩).1.k_unit = some photon_energy ∧
     ((bias_set_units photon_energy time_unit ⟨none⟩).2).isSome) :=
  ⟨by decide, bias_set_units_mutates_before_error photon_energy time_unit ⟨none⟩ (by decide)⟩

/-- C6: `uniform_prior.evaluate` returns `value` exactly on the closed
interval (both boundary points included), `0` outside; with bounds `[0, 1]`
and value `1`, evaluation at `0.5`, `-0.5`, `0` and `1` gives `1`, `0`, `1`
and `1`. -/
theorem uniform_prior_evaluate_spec :
    (∀ x lower_bound upper_bound value : ℝ,
        uniform_prior_evaluate x lower_bound upper_bound value =
          if lower_bound ≤ x ∧ x ≤ upper_bound then value else 0) ∧
    uniform_prior_evaluate 0.5 0 1 1 = 1 ∧
    uniform_prior_evaluate (-0.5) 0 1 1 = 0 ∧
    uniform_prior_evaluate 0 0 1 1 = 1 ∧
    uniform_prior_evaluate 1 0 1 1 = 1 := by
  refine ⟨fun x lb ub v => rfl, ?_, ?_, ?_, ?_⟩ <;> norm_num [uniform_prior_evaluate]

/-- C7: `log_uniform_prior.evaluate` (with nonnegative lower bound) returns
`1/x` exactly on the open interval (both boundary points excluded), `0`
outside; with bounds `[0, 100]`, evaluation at `50` gives `0.02`, and at
`200`, `100` and `0` gives `0`. -/
theorem log_uniform_prior_evaluate_spec :
    (∀ x lower_bound upper_bound : ℝ, 0 ≤ lower_bound →
        log_uniform_prior_evaluate x lower_bound upper_bound =
          if lower_bound < x ∧ x < upper_bound then 1 / x else 0) ∧
    log_uniform_prior_evaluate 50 0 100 = 0.02 ∧
    log_uniform_prior_evaluate 200 0 100 = 0 ∧
    log_uniform_prior_evaluate 100 0 100 = 0 ∧
    log_uniform_prior_evaluate 0 0 100 = 0 := by
  refine ⟨fun x lb ub _h => rfl, ?_, ?_, ?_, ?_⟩ <;> norm_num [log_uniform_prior_evaluate]

/-- Witness for C7: the nonnegativity hypothesis holds at lower bound 0 and
the characterization applies at x = 50. -/
theorem log_uniform_prior_evaluate_spec_witness :
    (0 : ℝ) ≤ 0 ∧
    log_uniform_prior_evaluate 50 0 100 =
      if (0 : ℝ) < 50 ∧ (50 : ℝ) < 100 then 1 / 50 else 0 :=
  ⟨le_refl 0, log_uniform_prior_evaluate_spec.1 50 0 100 (le_refl 0)⟩

/-- C8: under the precondition `beta != 0`, `log_parabola.peak_energy`
returns exactly `piv * 10 ** ((2 + alpha) / (2 * beta))` and leaves the
parameter record unchanged. -/
theorem log_parabola_peak_energy_spec (p : LogParabolaParams) (_h : p.beta ≠ 0) :
    (log_parabola_peak_energy p).1 =
      p.piv * (10 : ℝ) ^ ((2 + p.alpha) / (2 * p.beta)) ∧
    (log_parabola_peak_energy p).2 = p :=
  ⟨rfl, rfl⟩

/-- Witness for C8 at the concrete parameter record K = 0, piv = 1,
alpha = -2, beta = 1. -/
theorem log_parabola_peak_energy_spec_witness :
    (LogParabolaParams.mk 0 1 (-2) 1).beta ≠ 0 ∧
    ((log_parabola_peak_energy (LogParabolaParams.mk 0 1 (-2) 1)).1 =
        (LogParabolaParams.mk 0 1 (-2) 1).piv *
          (10 : ℝ) ^ ((2 + (LogParabolaParams.mk 0 1 (-2) 1).alpha) /
            (2 * (LogParabolaParams.mk 0 1 (-2) 1).beta)) ∧
     (log_parabola_peak_energy (LogParabolaParams.mk 0 1 (-2) 1)).2 =
        LogParabolaParams.mk 0 1 (-2) 1) :=
  ⟨by norm_num, log_parabola_peak_energy_spec (LogParabolaParams.mk 0 1 (-2) 1) (by norm_num)⟩

/-- C3: `band.ggrb_int_pl` returns the polynomial antiderivative
`pre / (2 + b) * (Emax^(2+b) - Emin^(2+b))` for every `b != -2` and the
logarithmic form `pre * log(Emax / Emin)` exactly when `b == -2`, with
`pre = (a-b)^(a-b) * exp(b-a) / Ec^b`. -/
theorem ggrb_int_pl_spec (a b Ec Emin Emax : ℝ) :
    ggrb_int_pl a b Ec Emin Emax =
      if b = -2 then
        (a - b) ^ (a - b) * Real.exp (b - a) / Ec ^ b * Real.log (Emax / Emin)
      else
        (a - b) ^ (a - b) * Real.exp (b - a) / Ec ^ b / (2 + b) *
          (Emax ^ (2 + b) - Emin ^ (2 + b)) := by
  unfold ggrb_int_pl
  by_cases h : b = -2 <;> simp [h]

/-- C4: in `band.evaluate` the cutoff energy is `xp / (2 + alpha)` for every
`alpha != -2` and `xp / 0.0001` exactly when `alpha == -2`, and the split
energy is `(alpha - beta) * Ec`; concretely, at `xp = 200` the cutoff energy
is `2000000` for `alpha = -2` and `200` for `alpha = -1`. -/
theorem band_Ec_Esplit_spec :
    (∀ alpha beta xp : ℝ,
        band_Ec alpha xp = (if alpha = -2 then xp / 0.0001 else xp / (2 + alpha)) ∧
        band_Esplit alpha beta xp = (alpha - beta) * band_Ec alpha xp) ∧
    band_Ec (-2) 200 = 2000000 ∧
    band_Ec (-1) 200 = 200 := by
  refine ⟨fun alpha beta xp => ⟨rfl, rfl⟩, ?_, ?_⟩ <;> norm_num [band_Ec]

/-- C1: for `opt = 1`, whenever the split energy does not lie in `[a, b]` and
is not below `a` (equivalently `a <= Esplit` and `Esplit > b`),
`band.evaluate` fails with the fatal `RuntimeError` and never returns a
value. -/
theorem band_evaluate_esplit_gt_b_raises (x alpha beta xp F a b : ℝ)
    (ha : a ≤ band_Esplit alpha beta xp) (hb : b < band_Esplit alpha beta xp) :
    band_evaluate x alpha beta xp F a b 1 =
      Except.error (BandErr.runtimeError "Esplit > emax!") := by
  have hflux : band_intflux alpha beta xp a b 1 =
      Except.error (BandErr.runtimeError "Esplit > emax!") := by
    unfold band_intflux
    rw [if_neg (by norm_num : ¬(1 : ℝ) = 0)]
    rw [if_neg (fun hc => absurd hb (not_lt.2 hc.2))]
    rw [if_neg (not_lt.2 ha)]
  unfold band_evaluate
  rw [if_pos (Or.inr rfl), hflux]

/-- Witness for C1: at `alpha = 0`, `beta = -1`, `xp = 2` the split energy is
`1`, which is above `b = 1/2` and not below `a = 0`, and evaluation raises the
`RuntimeError`. -/
theorem band_evaluate_esplit_gt_b_raises_witness :
    ((0 : ℝ) ≤ band_Esplit 0 (-1) 2 ∧ (1 / 2 : ℝ) < band_Esplit 0 (-1) 2) ∧
    band_evaluate 5 0 (-1) 2 1 0 (1 / 2) 1 =
      Except.error (BandErr.runtimeError "Esplit > emax!") := by
  have h1 : (0 : ℝ) ≤ band_Esplit 0 (-1) 2 := by norm_num [band_Esplit, band_Ec]
  have h2 : (1 / 2 : ℝ) < band_Esplit 0 (-1) 2 := by norm_num [band_Esplit, band_Ec]
  exact ⟨⟨h1, h2⟩, band_evaluate_esplit_gt_b_raises 5 0 (-1) 2 1 0 (1 / 2) h1 h2⟩

/-- C2: for `alpha > beta`, `Ec > 0` and `a <= Esplit <= b`, the low-energy
branch and the high-energy branch of the Band model take equal values at
`x = Esplit = (alpha - beta) * Ec`: the output is continuous at the join. -/
theorem band_branches_agree_at_esplit (norm Ec alpha beta a b : ℝ)
    (hab : beta < alpha) (hEc : 0 < Ec)
    (_ha : a ≤ (alpha - beta) * Ec) (_hb : (alpha - beta) * Ec ≤ b) :
    band_low norm Ec alpha ((alpha - beta) * Ec) =
      band_high norm Ec alpha beta ((alpha - beta) * Ec) := by
  have hpos : 0 < alpha - beta := sub_pos.2 hab
  have hne : Ec ≠ 0 := ne_of_gt hEc
  have hx : (alpha - beta) * Ec / Ec = alpha - beta := mul_div_cancel_right₀ _ hne
  have hx2 : -((alpha - beta) * Ec) / Ec = -(alpha - beta) := by rw [neg_div, hx]
  have hpow : (alpha - beta) ^ (alpha - beta) * (alpha - beta) ^ beta =
      (alpha - beta) ^ alpha := by
    rw [← Real.rpow_add hpos]
    have h3 : alpha - beta + beta = alpha := by ring
    rw [h3]
  unfold band_low band_high
  rw [hx, hx2, neg_sub, ← hpow]
  ring

/-- Witness for C2 at `norm = 1`, `Ec = 1`, `alpha = 1`, `beta = 0`, `a = 0`,
`b = 2`. -/
theorem band_branches_agree_at_esplit_witness :
    ((0 : ℝ) < 1 ∧ (0 : ℝ) < 1 ∧ (0 : ℝ) ≤ (1 - 0) * 1 ∧ ((1 : ℝ) - 0) * 1 ≤ 2) ∧
    band_low 1 1 1 ((1 - 0) * 1) = band_high 1 1 1 0 ((1 - 0) * 1) :=
  ⟨by norm_num,
   band_branches_agree_at_esplit 1 1 1 0 0 2 (by norm_num) (by norm_num)
     (by norm_num) (by norm_num)⟩

/-- Stage 1 never reports the entry-assertion failure: its only error is the
`RuntimeError` for an inconsistent split energy. -/
theorem band_intflux_ne_assertion (alpha beta xp a b opt : ℝ) :
    band_intflux alpha beta xp a b opt ≠ Except.error BandErr.assertionError := by
  unfold band_intflux
  split_ifs <;> simp

/-- C10: `band.evaluate` fails with the entry assertion exactly when `opt` is
neither `0` nor `1`, regardless of the other arguments; under the
precondition `opt ∈ {0, 1}` the assertion never fires. -/
theorem band_evaluate_assertion_iff (x alpha beta xp F a b opt : ℝ) :
    band_evaluate x alpha beta xp F a b opt = Except.error BandErr.assertionError ↔
      ¬(opt = 0 ∨ opt = 1) := by
  unfold band_evaluate
  by_cases h : opt = 0 ∨ opt = 1
  · rw [if_pos h]
    simp only [h, not_true_eq_false, iff_false]
    cases hi : band_intflux alpha beta xp a b opt with
    | error e =>
      cases e with
      | assertionError => exact absurd hi (band_intflux_ne_assertion alpha beta xp a b opt)
      | runtimeError s => simp
    | ok v => split_ifs <;> simp
  · rw [if_neg h]
    simp [h]
